import Mathlib

/-!
# Verification of the Uniblox e-commerce reward-issuing core

Shallow embedding of the pricing engine (`src/lib/utils/index.ts`), the
checkout quote and order-settlement handlers (`src/app/api/checkout/route.ts`,
POST and PUT), the cart handlers (`src/app/api/cart/route.ts`,
`src/app/api/cart/discount/route.ts`), and the admin settings handler
(`src/app/api/admin/settings/route.ts`), over the Mongoose data model
(Product, Cart, DiscountCode, Order, StoreSettings).

Money amounts are embedded as rationals; JavaScript `Math.round` is
`fun x => Int.floor (x + 1/2)` (round half toward positive infinity),
which agrees with `Math.round` on every real argument. Instants are
abstract naturals; `new Date() > d` becomes `now > d`.
-/

namespace Uniblox

/-- JavaScript `Math.round`: round half up (toward +infinity). -/
def jsRound (x : ℚ) : ℤ := (x + 1/2).floor

/-- Function `jsRound` is the half-up rounding `⌊x + 1/2⌋`. -/
theorem jsRound_eq_floor (x : ℚ) : jsRound x = ⌊x + 1/2⌋ := by
  rw [jsRound, Rat.floor_def, Rat.floor_def']

/-- Function `calculateDiscount` from `src/lib/utils/index.ts`:
`Math.round(((subtotal * discountPercent) / 100) * 100) / 100`. -/
def calculateDiscount (subtotal discountPercent : ℚ) : ℚ :=
  (jsRound (subtotal * discountPercent / 100 * 100) : ℚ) / 100

/-- The grand total as computed at quote time (`total = subtotal - discountAmount`,
checkout POST) and echoed through settlement. -/
def computeTotal (subtotal discountAmount : ℚ) : ℚ := subtotal - discountAmount

/-- Rounding to two decimals with round-half-up, written from the
spec sentence "round(subtotal × percent / 100, 2) using standard
round-half-up at the 2-decimal boundary"; compared against
`calculateDiscount` in the theorems. -/
def roundHalfUp2 (y : ℚ) : ℚ := ((⌊y * 100 + 1/2⌋ : ℤ) : ℚ) / 100

/-- Predicate `isExpired` from `src/lib/utils/index.ts`, and the inline
`discount.expiresAt && new Date() > discount.expiresAt` checks. -/
def isExpiredAt (now : ℕ) (d : Option ℕ) : Bool :=
  match d with
  | none => false
  | some e => decide (now > e)

/-- Half-up rounding at a concrete value, via `Int.floor_eq_iff`. -/
theorem jsRound_concrete (x : ℚ) (z : ℤ) (h1 : (z : ℚ) ≤ x + 1/2)
    (h2 : x + 1/2 < z + 1) : jsRound x = z := by
  rw [jsRound_eq_floor]
  exact Int.floor_eq_iff.mpr ⟨h1, h2⟩

/-! ## Data model (Mongoose schemas)

Ids (Mongo ObjectIds) are embedded as naturals; the collections are lists,
`findOne`/`findById` is `List.find?` on the relevant key, and the
`findOneAndUpdate`/`findByIdAndUpdate` calls are first-match list updates. -/

/-- Schema `ProductSchema` (`Product.model.ts`). Stock is an integer: the schema
`min: 0` validator does not run on `$inc` update operations, so the field
can in fact go negative. -/
structure Product where
  pid : ℕ
  name : String
  price : ℚ
  stock : ℤ
  isActive : Bool
deriving Repr, DecidableEq

/-- Schema `CartItemSchema` (`Cart.model.ts`). -/
structure CartItem where
  product : ℕ
  quantity : ℕ
  priceAtAdd : ℚ
deriving Repr, DecidableEq

/-- Schema `CartSchema` (`Cart.model.ts`): one cart per user, optional reference
to an applied discount code. -/
structure Cart where
  user : ℕ
  items : List CartItem
  appliedDiscount : Option ℕ
deriving Repr, DecidableEq

/-- Schema `DiscountCodeSchema` (`DiscountCode.model.ts`). -/
structure DiscountCode where
  did : ℕ
  code : String
  discountPercent : ℚ
  isUsed : Bool
  usedBy : Option ℕ
  usedAt : Option ℕ
  generatedForOrder : ℕ
  expiresAt : Option ℕ
deriving Repr, DecidableEq

/-- A line item of an order as persisted by settlement (pricing-relevant
fields of the item snapshot). -/
structure OrderItem where
  product : ℕ
  price : ℚ
  quantity : ℕ
deriving Repr, DecidableEq

/-- Schema `OrderSchema` (`Order.model.ts`), pricing- and payment-relevant fields. -/
structure Order where
  user : ℕ
  orderNumber : ℕ
  items : List OrderItem
  subtotal : ℚ
  discountCode : Option String
  discountPercent : ℚ
  discountAmount : ℚ
  total : ℚ
  paymentId : String
deriving Repr, DecidableEq

/-- Schema `StoreSettingsSchema` (`StoreSettings.model.ts`): singleton configuration
plus the running order counter. -/
structure StoreSettings where
  nthOrderDiscount : ℕ
  discountPercent : ℚ
  totalOrders : ℕ
  defaultDiscountExpiry : Option ℕ
deriving Repr, DecidableEq

/-- The schema defaults of `StoreSettingsSchema` (also the values seeded by
`getStoreSettings` when no document exists). -/
def defaultStoreSettings : StoreSettings :=
  { nthOrderDiscount := 5, discountPercent := 10, totalOrders := 0,
    defaultDiscountExpiry := none }

/-- The persistent store: every collection the reward-issuing core touches,
plus the singleton settings document. -/
structure DB where
  products : List Product
  carts : List Cart
  codes : List DiscountCode
  orders : List Order
  settings : StoreSettings
deriving Repr, DecidableEq

/-- Query `Product.findById`. -/
def lookupProduct (db : DB) (pid : ℕ) : Option Product :=
  db.products.find? (fun p => p.pid = pid)

/-- Lookup of a `DiscountCode` through a populated cart reference. -/
def lookupCode (db : DB) (did : ℕ) : Option DiscountCode :=
  db.codes.find? (fun c => c.did = did)

/-- Query `DiscountCode.findOne({ code })`. -/
def lookupCodeByString (db : DB) (s : String) : Option DiscountCode :=
  db.codes.find? (fun c => c.code = s)

/-- Query `Cart.findOne({ user })`. -/
def lookupCart (db : DB) (uid : ℕ) : Option Cart :=
  db.carts.find? (fun c => c.user = uid)

/-- Update `Product.findByIdAndUpdate(pid, { $inc: { stock: delta } })`: first match
by id, no conditional floor on the resulting stock. -/
def incStock (pid : ℕ) (delta : ℤ) : List Product → List Product
  | [] => []
  | p :: ps =>
      if p.pid = pid then { p with stock := p.stock + delta } :: ps
      else p :: incStock pid delta ps

/-- Update `DiscountCode.findOneAndUpdate({ code }, { isUsed: true, usedBy, usedAt })`:
first match by code string; when no code matches, nothing happens and no
error is raised. -/
def markCodeUsed (s : String) (uid : ℕ) (now : ℕ) :
    List DiscountCode → List DiscountCode
  | [] => []
  | c :: cs =>
      if c.code = s then
        { c with isUsed := true, usedBy := some uid, usedAt := some now } :: cs
      else c :: markCodeUsed s uid now cs

/-- Update `Cart.findOneAndUpdate({ user }, { items: [], appliedDiscount: null })`. -/
def clearCart (uid : ℕ) : List Cart → List Cart
  | [] => []
  | c :: cs =>
      if c.user = uid then { c with items := [], appliedDiscount := none } :: cs
      else c :: clearCart uid cs

/-- Update `Cart.findOneAndUpdate({ user }, { appliedDiscount: v })` and the
`cart.appliedDiscount = ...; cart.save()` write of the apply handler. -/
def setAppliedDiscount (uid : ℕ) (v : Option ℕ) : List Cart → List Cart
  | [] => []
  | c :: cs =>
      if c.user = uid then { c with appliedDiscount := v } :: cs
      else c :: setAppliedDiscount uid v cs

/-! ## Checkout POST (`src/app/api/checkout/route.ts`, quote) -/

/-- The per-item validation loop of the checkout POST handler: reject a
missing or inactive product, reject `item.quantity > product.stock`,
otherwise snapshot id, live price and quantity. -/
def validItemsOf (db : DB) : List CartItem → Except String (List OrderItem)
  | [] => .ok []
  | it :: rest =>
      match lookupProduct db it.product with
      | none => .error "Product is no longer available"
      | some p =>
          if !p.isActive then .error "Product is no longer available"
          else if (it.quantity : ℤ) > p.stock then .error "Insufficient stock"
          else
            match validItemsOf db rest with
            | .error e => .error e
            | .ok tl => .ok ({ product := p.pid, price := p.price,
                               quantity := it.quantity } :: tl)

/-- The quote the POST handler returns inside the Razorpay order payload. -/
structure Quote where
  items : List OrderItem
  subtotal : ℚ
  discountCode : Option String
  discountPercent : ℚ
  discountAmount : ℚ
  total : ℚ
deriving Repr, DecidableEq

/-- The discount gate shared by checkout POST and cart GET: a populated
applied code contributes its percent only when it is not used and not
expired; otherwise percent, amount and code stay `0/0/null` and no error
is raised. -/
def cartDiscountState (db : DB) (cart : Cart) (now : ℕ) (subtotal : ℚ) :
    ℚ × ℚ × Option String :=
  match cart.appliedDiscount.bind (lookupCode db) with
  | some d =>
      if !d.isUsed && !isExpiredAt now d.expiresAt then
        (d.discountPercent, calculateDiscount subtotal d.discountPercent,
         some d.code)
      else (0, 0, none)
  | none => (0, 0, none)

/-- Handler `POST /api/checkout` up to the external gateway call: fetch the cart,
reject an empty one, validate items against the live catalog, compute
subtotal from live prices, apply the discount gate, and quote
`total = subtotal - discountAmount`. -/
def checkoutPOST (uid : ℕ) (now : ℕ) (db : DB) : Except String Quote :=
  match lookupCart db uid with
  | none => .error "Cart is empty"
  | some cart =>
      if cart.items.isEmpty then .error "Cart is empty"
      else
        match validItemsOf db cart.items with
        | .error e => .error e
        | .ok vItems =>
            let subtotal :=
              vItems.foldl (fun s it => s + it.price * (it.quantity : ℚ)) 0
            let dState := cartDiscountState db cart now subtotal
            .ok { items := vItems, subtotal := subtotal,
                  discountCode := dState.2.2, discountPercent := dState.1,
                  discountAmount := dState.2.1,
                  total := computeTotal subtotal dState.2.1 }

/-! ## Checkout PUT (`src/app/api/checkout/route.ts`, order settlement) -/

/-- The JSON body the PUT settlement handler reads; every pricing field is
caller-supplied. -/
structure ConfirmRequest where
  razorpayOrderId : String
  razorpayPaymentId : String
  items : List OrderItem
  subtotal : ℚ
  discountCode : Option String
  discountPercent : ℚ
  discountAmount : ℚ
  total : ℚ
  userId : ℕ
deriving Repr, DecidableEq

/-- Response object `newDiscountCode` of a settlement response. -/
structure MintedCode where
  code : String
  discountPercent : ℚ
  expiresAt : Option ℕ
deriving Repr, DecidableEq

/-- The settlement response body. -/
structure ConfirmResponse where
  success : Bool
  orderNumber : Option ℕ
  total : Option ℚ
  newDiscountCode : Option MintedCode
deriving Repr, DecidableEq

/-- Handler `PUT /api/checkout`: after checking the payment ids are present, the
handler unconditionally (1) increments `settings.totalOrders` and takes the
new value as the order number, (2) inserts an order built from the
caller-supplied fields, (3) marks the named discount code used (first match,
no already-used check), (4) `$inc`-decrements stock for every submitted item
(no re-check), (5) clears the cart of `userId`, and (6) mints a fresh code
when `orderNumber % settings.nthOrderDiscount == 0`, with the settings
percent and, when `defaultDiscountExpiry` is configured, expiry
`now + defaultDiscountExpiry`. `now`, `freshDid` and `freshCode` stand for
the clock and the uuid source. -/
def checkoutPUT (req : ConfirmRequest) (now freshDid : ℕ) (freshCode : String)
    (db : DB) : DB × ConfirmResponse :=
  if req.razorpayPaymentId = "" ∨ req.razorpayOrderId = "" then
    (db, { success := false, orderNumber := none, total := none,
           newDiscountCode := none })
  else
    let settings1 :=
      { db.settings with totalOrders := db.settings.totalOrders + 1 }
    let orderNumber := settings1.totalOrders
    let order : Order :=
      { user := req.userId, orderNumber := orderNumber, items := req.items,
        subtotal := req.subtotal, discountCode := req.discountCode,
        discountPercent := req.discountPercent,
        discountAmount := req.discountAmount, total := req.total,
        paymentId := req.razorpayPaymentId }
    let codes1 :=
      match req.discountCode with
      | some s => markCodeUsed s req.userId now db.codes
      | none => db.codes
    let products1 :=
      req.items.foldl
        (fun ps it => incStock it.product (-(it.quantity : ℤ)) ps) db.products
    let carts1 := clearCart req.userId db.carts
    let minted : Option (DiscountCode × MintedCode) :=
      if orderNumber % settings1.nthOrderDiscount = 0 then
        let expiresAt := settings1.defaultDiscountExpiry.map (fun d => now + d)
        some ({ did := freshDid, code := freshCode,
                discountPercent := settings1.discountPercent, isUsed := false,
                usedBy := none, usedAt := none,
                generatedForOrder := orderNumber, expiresAt := expiresAt },
              { code := freshCode, discountPercent := settings1.discountPercent,
                expiresAt := expiresAt })
      else none
    let codes2 :=
      match minted with
      | some m => codes1 ++ [m.1]
      | none => codes1
    ({ products := products1, carts := carts1, codes := codes2,
       orders := db.orders ++ [order], settings := settings1 },
     { success := true, orderNumber := some orderNumber,
       total := some req.total, newDiscountCode := minted.map (fun m => m.2) })

/-! ## Cart GET (`src/app/api/cart/route.ts`) -/

/-- The cart view returned by `GET /api/cart`. -/
structure CartView where
  itemCount : ℕ
  subtotal : ℚ
  discount : Option (String × ℚ)
  discountAmount : ℚ
  total : ℚ
deriving Repr, DecidableEq

/-- Handler `GET /api/cart`: filter out items whose product is missing or inactive,
recompute the subtotal from live prices, and apply the same discount gate
as the checkout quote. A missing cart reads as the empty view. -/
def cartGET (uid : ℕ) (now : ℕ) (db : DB) : CartView :=
  match lookupCart db uid with
  | none =>
      { itemCount := 0, subtotal := 0, discount := none, discountAmount := 0,
        total := 0 }
  | some cart =>
      let vItems := cart.items.filter (fun it =>
        match lookupProduct db it.product with
        | some p => p.isActive
        | none => false)
      let subtotal := vItems.foldl (fun s it =>
        s + ((lookupProduct db it.product).map (fun p => p.price)).getD 0
          * (it.quantity : ℚ)) 0
      let dState := cartDiscountState db cart now subtotal
      { itemCount := vItems.foldl (fun s it => s + it.quantity) 0,
        subtotal := subtotal,
        discount := dState.2.2.map (fun c => (c, dState.1)),
        discountAmount := dState.2.1,
        total := computeTotal subtotal dState.2.1 }

/-! ## Cart discount POST and DELETE (`src/app/api/cart/discount/route.ts`) -/

/-- The response of the apply-discount handler. -/
inductive ApplyResult
  | ok (code : String) (percent : ℚ)
  | err (msg : String)
deriving Repr, DecidableEq

/-- Handler `POST /api/cart/discount`: look the code up by string, reject a missing,
used or expired code, reject a missing or empty cart, else store the code
reference on the cart. The code record itself is not written. -/
def cartDiscountPOST (uid : ℕ) (s : String) (now : ℕ) (db : DB) :
    DB × ApplyResult :=
  match lookupCodeByString db s with
  | none => (db, .err "Invalid discount code")
  | some d =>
      if d.isUsed then (db, .err "This discount code has already been used")
      else if isExpiredAt now d.expiresAt then
        (db, .err "This discount code has expired")
      else
        match lookupCart db uid with
        | none => (db, .err "Cart not found")
        | some cart =>
            if cart.items.isEmpty then
              (db, .err "Cannot apply discount to empty cart")
            else
              ({ db with carts := setAppliedDiscount uid (some d.did) db.carts },
               .ok d.code d.discountPercent)

/-- Handler `DELETE /api/cart/discount`: drop the applied-discount reference. -/
def cartDiscountDELETE (uid : ℕ) (db : DB) : DB :=
  { db with carts := setAppliedDiscount uid none db.carts }

/-! ## Admin settings PATCH (`src/app/api/admin/settings/route.ts`) -/

/-- The PATCH body: three optional fields, expiry nullable. -/
structure SettingsPatch where
  nthOrderDiscount : Option ℕ
  discountPercent : Option ℚ
  defaultDiscountExpiry : Option (Option ℕ)
deriving Repr, DecidableEq

/-- Handler `PATCH /api/admin/settings`: overwrite exactly the supplied fields;
`totalOrders` is not among them. -/
def settingsPATCH (p : SettingsPatch) (db : DB) : DB :=
  let s0 := db.settings
  let s1 := match p.nthOrderDiscount with
    | some v => { s0 with nthOrderDiscount := v }
    | none => s0
  let s2 := match p.discountPercent with
    | some v => { s1 with discountPercent := v }
    | none => s1
  let s3 := match p.defaultDiscountExpiry with
    | some v => { s2 with defaultDiscountExpiry := v }
    | none => s2
  { db with settings := s3 }

/-! ## The operations of the modeled surface, as one step type -/

/-- Every modeled state-changing or state-reading operation of the
reward-issuing core. -/
inductive Op
  | settle (req : ConfirmRequest) (now freshDid : ℕ) (freshCode : String)
  | quote (uid now : ℕ)
  | viewCart (uid now : ℕ)
  | applyCode (uid : ℕ) (s : String) (now : ℕ)
  | removeCode (uid : ℕ)
  | cartClear (uid : ℕ)
  | patchSettings (p : SettingsPatch)
deriving Repr, DecidableEq

/-- The state transition of each operation (read-only handlers leave the
store unchanged). `cartClear` is `DELETE /api/cart`. -/
def runOp : Op → DB → DB
  | .settle req now fid fc, db => (checkoutPUT req now fid fc db).1
  | .quote _ _, db => db
  | .viewCart _ _, db => db
  | .applyCode uid s now, db => (cartDiscountPOST uid s now db).1
  | .removeCode uid, db => cartDiscountDELETE uid db
  | .cartClear uid, db =>
      { db with carts := clearCart uid db.carts }
  | .patchSettings p, db => settingsPATCH p db

/-- Whether an operation is the settlement. -/
def Op.isSettle : Op → Bool
  | .settle _ _ _ _ => true
  | _ => false

/-! ## Theorems -/

/-- Fact: `⌊1/2⌋ = 0` over the rationals. -/
theorem floor_one_half : ⌊(1/2 : ℚ)⌋ = 0 := by
  rw [Int.floor_eq_iff]
  norm_num

/-- Adding a natural to `1/2` floors to that natural. -/
theorem floor_natCast_add_half (m : ℕ) : ⌊(m : ℚ) + 1/2⌋ = (m : ℤ) := by
  rw [show ((m : ℚ) + 1/2) = ((m : ℤ) : ℚ) + 1/2 by push_cast; ring,
    Int.floor_int_add, floor_one_half]
  ring

/-- C6, counterexample: the clause `computeDiscountAmount(x, 100) == x` of the
claim fails at the nonnegative subtotal `x = 0.001`, where the code returns
`0`. -/
theorem C6_counterexample :
    (0 : ℚ) ≤ 1/1000 ∧ calculateDiscount (1/1000) 100 ≠ 1/1000 := by
  refine ⟨by norm_num, ?_⟩
  rw [calculateDiscount, show jsRound (1/1000 * 100 / 100 * 100 : ℚ) = 0 from
    jsRound_concrete _ _ (by norm_num) (by norm_num)]
  norm_num

/-- C6, amended: function `calculateDiscount` is exactly half-up rounding of
`subtotal × percent / 100` at two decimals; the three concrete examples hold;
`calculateDiscount(x, 0) = 0` for every `x ≥ 0`; and
`calculateDiscount(x, 100) = x` for every `x ≥ 0` expressible with at most
two decimals (`x = m/100`), though not for finer-grained `x`. -/
theorem C6_amended :
    (∀ s p : ℚ, calculateDiscount s p = roundHalfUp2 (s * p / 100)) ∧
    (calculateDiscount 1000 10 = 100 ∧ calculateDiscount 333 10 = 333/10 ∧
      calculateDiscount 500 25 = 125) ∧
    (∀ s : ℚ, 0 ≤ s → calculateDiscount s 0 = 0) ∧
    (∀ s : ℚ, 0 ≤ s → (∃ m : ℕ, s = (m : ℚ) / 100) →
      calculateDiscount s 100 = s) := by
  refine ⟨?_, ⟨?_, ?_, ?_⟩, ?_, ?_⟩
  · intro s p
    rw [calculateDiscount, roundHalfUp2, jsRound_eq_floor]
  · rw [calculateDiscount, show jsRound (1000 * 10 / 100 * 100 : ℚ) = 10000
      from jsRound_concrete _ _ (by norm_num) (by norm_num)]
    norm_num
  · rw [calculateDiscount, show jsRound (333 * 10 / 100 * 100 : ℚ) = 3330 from
      jsRound_concrete _ _ (by norm_num) (by norm_num)]
    norm_num
  · rw [calculateDiscount, show jsRound (500 * 25 / 100 * 100 : ℚ) = 12500 from
      jsRound_concrete _ _ (by norm_num) (by norm_num)]
    norm_num
  · intro s _
    rw [calculateDiscount, jsRound_eq_floor,
      show s * 0 / 100 * 100 + 1/2 = (1/2 : ℚ) by ring, floor_one_half]
    norm_num
  · rintro s _ ⟨m, rfl⟩
    rw [calculateDiscount, jsRound_eq_floor,
      show (m : ℚ) / 100 * 100 / 100 * 100 + 1/2 = (m : ℚ) + 1/2 by ring,
      floor_natCast_add_half]
    push_cast
    ring

/-- C6, witness: the amended clauses with hypotheses, at `x = 5` and
`x = 0.03`. -/
theorem C6_witness :
    calculateDiscount 5 0 = 0 ∧ calculateDiscount (3/100) 100 = 3/100 :=
  ⟨C6_amended.2.2.1 5 (by norm_num),
   C6_amended.2.2.2 (3/100) (by norm_num) ⟨3, by norm_num⟩⟩

/-- C7, counterexample: at subtotal `s = 0.005` and percent `p = 100` (both in
range) the discount rounds up to `0.01` and the computed total is negative. -/
theorem C7_counterexample :
    (0 : ℚ) ≤ 1/200 ∧ (0 : ℚ) ≤ 100 ∧ (100 : ℚ) ≤ 100 ∧
    computeTotal (1/200) (calculateDiscount (1/200) 100) < 0 := by
  refine ⟨by norm_num, by norm_num, le_refl _, ?_⟩
  rw [computeTotal, calculateDiscount,
    show jsRound (1/200 * 100 / 100 * 100 : ℚ) = 1 from
      jsRound_concrete _ _ (by norm_num) (by norm_num)]
  norm_num

/-- C7, amended: for every `p ∈ [0,100]` and `s ≥ 0`,
`computeTotal(s, computeDiscountAmount(s, p)) = s − round(s·p/100, 2)`
holds unconditionally, and the result is nonnegative whenever the subtotal
is expressible with at most two decimals (`s = m/100`); for finer-grained
subtotals the total can be negative. -/
theorem C7_amended (s p : ℚ) (hs : 0 ≤ s) (_hp0 : 0 ≤ p) (hp1 : p ≤ 100) :
    computeTotal s (calculateDiscount s p) = s - roundHalfUp2 (s * p / 100) ∧
    ((∃ m : ℕ, s = (m : ℚ) / 100) →
      0 ≤ computeTotal s (calculateDiscount s p)) := by
  constructor
  · rw [computeTotal, calculateDiscount, roundHalfUp2, jsRound_eq_floor]
  · rintro ⟨m, rfl⟩
    rw [computeTotal, calculateDiscount, jsRound_eq_floor,
      show (m : ℚ) / 100 * p / 100 * 100 = (m : ℚ) * (p / 100) by ring]
    have h1 : (m : ℚ) * (p / 100) ≤ (m : ℚ) :=
      mul_le_of_le_one_right (by positivity) (by linarith)
    have h2 : ⌊(m : ℚ) * (p / 100) + 1/2⌋ ≤ ⌊(m : ℚ) + 1/2⌋ :=
      Int.floor_le_floor (by linarith)
    rw [floor_natCast_add_half] at h2
    have h4 : ((⌊(m : ℚ) * (p / 100) + 1/2⌋ : ℤ) : ℚ) ≤ (m : ℚ) := by
      exact_mod_cast h2
    linarith

/-- C7, witness: the amended statement at `s = 3`, `p = 50`. -/
theorem C7_witness :
    computeTotal 3 (calculateDiscount 3 50) = 3 - roundHalfUp2 (3 * 50 / 100) ∧
    0 ≤ computeTotal 3 (calculateDiscount 3 50) :=
  ⟨(C7_amended 3 50 (by norm_num) (by norm_num) (by norm_num)).1,
   (C7_amended 3 50 (by norm_num) (by norm_num) (by norm_num)).2
     ⟨300, by norm_num⟩⟩

/-! ## Concrete scenario used by the settlement bug demonstrations -/

/-- A catalog item with five units in stock. -/
def demoProduct : Product :=
  { pid := 1, name := "Widget", price := 100, stock := 5, isActive := true }

/-- The cart of user 7: one unit of product 1. -/
def demoCart : Cart :=
  { user := 7, items := [{ product := 1, quantity := 1, priceAtAdd := 100 }],
    appliedDiscount := none }

/-- Default settings, counter at zero. -/
def demoSettings : StoreSettings :=
  { nthOrderDiscount := 5, discountPercent := 10, totalOrders := 0,
    defaultDiscountExpiry := none }

/-- The store before settlement. -/
def demoDB : DB :=
  { products := [demoProduct], carts := [demoCart], codes := [], orders := [],
    settings := demoSettings }

/-- The confirmed-payment callback for the one-unit purchase, with the
gateway payment proof id `pay_1` and the honestly echoed quote. -/
def demoReq : ConfirmRequest :=
  { razorpayOrderId := "order_rp_1", razorpayPaymentId := "pay_1",
    items := [{ product := 1, price := 100, quantity := 1 }], subtotal := 100,
    discountCode := none, discountPercent := 0, discountAmount := 0,
    total := 100, userId := 7 }

/-- C1: delivering the same confirmed-payment callback (proof id `pay_1`)
twice creates two order records both carrying that proof id, and decrements
the stock of the single purchased unit twice (5 to 3); both calls report
success. The settlement has no idempotency guard, so the claimed invariant
fails on the code. -/
theorem C1_duplicate_replay_bug :
    ((checkoutPUT demoReq 0 101 "UNIBLOX-BBBB-BBBB"
        (checkoutPUT demoReq 0 100 "UNIBLOX-AAAA-AAAA" demoDB).1).1.orders.map
      (fun o => o.paymentId) = ["pay_1", "pay_1"]) ∧
    (((lookupProduct (checkoutPUT demoReq 0 101 "UNIBLOX-BBBB-BBBB"
        (checkoutPUT demoReq 0 100 "UNIBLOX-AAAA-AAAA" demoDB).1).1 1).map
      (fun p => p.stock)) = some 3) ∧
    (checkoutPUT demoReq 0 100 "UNIBLOX-AAAA-AAAA" demoDB).2.success = true ∧
    (checkoutPUT demoReq 0 101 "UNIBLOX-BBBB-BBBB"
      (checkoutPUT demoReq 0 100 "UNIBLOX-AAAA-AAAA" demoDB).1).2.success =
      true := by
  refine ⟨?_, ?_, rfl, rfl⟩ <;> rfl

/-- The same callback with the client-echoed `total` field tampered to 1. -/
def demoReqTampered : ConfirmRequest := { demoReq with total := 1 }

/-- C2: the settlement persists the caller-echoed total, not a server-side
recomputation. Two callbacks agreeing on user, stored cart and payment proof
but differing in the client `total` field persist different totals (100
versus 1), while the server-side recomputation for the same stored cart
(the checkout quote) yields 100. -/
theorem C2_client_echo_bug :
    ((checkoutPUT demoReq 0 100 "UNIBLOX-AAAA-AAAA" demoDB).1.orders.map
      (fun o => o.total) = [100]) ∧
    ((checkoutPUT demoReqTampered 0 100 "UNIBLOX-AAAA-AAAA" demoDB).1.orders.map
      (fun o => o.total) = [1]) ∧
    (∃ q, checkoutPOST 7 0 demoDB = .ok q ∧ q.total = 100) ∧
    (1 : ℚ) ≠ 100 := by
  refine ⟨rfl, rfl, ⟨_, rfl, ?_⟩, by norm_num⟩
  show computeTotal (0 + 100 * ((1 : ℕ) : ℚ)) 0 = 100
  rw [computeTotal]
  norm_num

/-- The store with only one unit left in stock. -/
def demoDBLowStock : DB :=
  { demoDB with products := [{ demoProduct with stock := 1 }] }

/-- A callback purchasing two units of product 1. -/
def demoReqTwoUnits : ConfirmRequest :=
  { demoReq with
    items := [{ product := 1, price := 100, quantity := 2 }],
    subtotal := 200, total := 200 }

/-- C3: the settlement never re-checks stock before decrementing: confirming
a two-unit purchase against a stock of one reports success and leaves the
product with stock −1, violating the never-negative invariant. -/
theorem C3_oversell_bug :
    (checkoutPUT demoReqTwoUnits 0 100 "UNIBLOX-AAAA-AAAA"
      demoDBLowStock).2.success = true ∧
    ((lookupProduct (checkoutPUT demoReqTwoUnits 0 100 "UNIBLOX-AAAA-AAAA"
      demoDBLowStock).1 1).map (fun p => p.stock)) = some (-1) := by
  exact ⟨rfl, rfl⟩

/-- A discount code already redeemed by user 9. -/
def demoUsedCode : DiscountCode :=
  { did := 3, code := "UNIBLOX-USED-CODE", discountPercent := 10,
    isUsed := true, usedBy := some 9, usedAt := some 0,
    generatedForOrder := 5, expiresAt := none }

/-- The store holding the already-used code. -/
def demoDBUsedCode : DB := { demoDB with codes := [demoUsedCode] }

/-- The callback claiming the already-used code. -/
def demoReqUsedCode : ConfirmRequest :=
  { demoReq with
    discountCode := some "UNIBLOX-USED-CODE",
    discountPercent := 10, discountAmount := 10, total := 90 }

/-- C4: settling with a code that is already marked used does not fail: the
handler reports success, persists an order crediting that code, and stomps
the redemption fields (`usedBy` becomes the new user), instead of rejecting
the transaction. -/
theorem C4_double_redemption_bug :
    (checkoutPUT demoReqUsedCode 0 100 "UNIBLOX-AAAA-AAAA"
      demoDBUsedCode).2.success = true ∧
    ((checkoutPUT demoReqUsedCode 0 100 "UNIBLOX-AAAA-AAAA"
      demoDBUsedCode).1.orders.map (fun o => o.discountCode) =
      [some "UNIBLOX-USED-CODE"]) ∧
    ((lookupCodeByString (checkoutPUT demoReqUsedCode 0 100 "UNIBLOX-AAAA-AAAA"
      demoDBUsedCode).1 "UNIBLOX-USED-CODE").map (fun c => c.usedBy) =
      some (some 7)) := by
  exact ⟨rfl, rfl, rfl⟩

/-- C5: a settlement with the payment ids present allocates order number
`k = totalOrders + 1` and mints a reward code exactly when
`k mod nthOrderDiscount == 0`; the minted code carries the settings percent,
is tagged with `k`, starts unused, and expires at
`now + defaultDiscountExpiry` exactly when that setting is configured; the
schema default for the interval is 5. -/
theorem C5_reward_minting (req : ConfirmRequest) (now freshDid : ℕ)
    (freshCode : String) (db : DB)
    (hpay : req.razorpayPaymentId ≠ "") (hord : req.razorpayOrderId ≠ "") :
    ((checkoutPUT req now freshDid freshCode db).2.newDiscountCode.isSome ↔
      (db.settings.totalOrders + 1) % db.settings.nthOrderDiscount = 0) ∧
    (∀ m, (checkoutPUT req now freshDid freshCode db).2.newDiscountCode =
        some m →
      m = { code := freshCode,
            discountPercent := db.settings.discountPercent,
            expiresAt :=
              db.settings.defaultDiscountExpiry.map (fun d => now + d) } ∧
      ({ did := freshDid, code := freshCode,
         discountPercent := db.settings.discountPercent, isUsed := false,
         usedBy := none, usedAt := none,
         generatedForOrder := db.settings.totalOrders + 1,
         expiresAt :=
           db.settings.defaultDiscountExpiry.map (fun d => now + d) } :
        DiscountCode) ∈ (checkoutPUT req now freshDid freshCode db).1.codes) ∧
    defaultStoreSettings.nthOrderDiscount = 5 := by
  have hcond : ¬(req.razorpayPaymentId = "" ∨ req.razorpayOrderId = "") := by
    simp [hpay, hord]
  rw [checkoutPUT, if_neg hcond]
  by_cases hmod :
      (db.settings.totalOrders + 1) % db.settings.nthOrderDiscount = 0
  · refine ⟨by simp [hmod], ?_, rfl⟩
    intro m hm
    simp only [hmod, if_true] at hm
    have h2 :
        ({ code := freshCode,
           discountPercent := db.settings.discountPercent,
           expiresAt :=
             db.settings.defaultDiscountExpiry.map (fun d => now + d) } :
          MintedCode) = m :=
      Option.some_injective _ hm
    constructor
    · exact h2.symm
    · simp [hmod]
  · refine ⟨by simp [hmod], ?_, rfl⟩
    intro m hm
    simp [hmod] at hm

/-- The demo store after four settled orders: the next order is the fifth. -/
def demoDBFourOrders : DB :=
  { demoDB with settings := { demoSettings with totalOrders := 4 } }

/-- C5, witness: settling the fifth order on default settings mints a code
tagged `5` with percent 10 and no expiry. -/
theorem C5_witness :
    ((checkoutPUT demoReq 0 100 "UNIBLOX-CCCC-DDDD"
        demoDBFourOrders).2.newDiscountCode.isSome ↔
      (demoDBFourOrders.settings.totalOrders + 1) %
        demoDBFourOrders.settings.nthOrderDiscount = 0) ∧
    (∀ m, (checkoutPUT demoReq 0 100 "UNIBLOX-CCCC-DDDD"
        demoDBFourOrders).2.newDiscountCode = some m →
      m = { code := "UNIBLOX-CCCC-DDDD",
            discountPercent := demoDBFourOrders.settings.discountPercent,
            expiresAt :=
              demoDBFourOrders.settings.defaultDiscountExpiry.map
                (fun d => 0 + d) } ∧
      ({ did := 100, code := "UNIBLOX-CCCC-DDDD",
         discountPercent := demoDBFourOrders.settings.discountPercent,
         isUsed := false, usedBy := none, usedAt := none,
         generatedForOrder := demoDBFourOrders.settings.totalOrders + 1,
         expiresAt :=
           demoDBFourOrders.settings.defaultDiscountExpiry.map
             (fun d => 0 + d) } : DiscountCode) ∈
        (checkoutPUT demoReq 0 100 "UNIBLOX-CCCC-DDDD"
          demoDBFourOrders).1.codes) ∧
    defaultStoreSettings.nthOrderDiscount = 5 :=
  C5_reward_minting demoReq 0 100 "UNIBLOX-CCCC-DDDD" demoDBFourOrders
    (by decide) (by decide)

/-- Writing the applied-discount reference rewrites the found cart and
nothing else: looking the cart up afterwards returns the same cart with the
new reference. -/
theorem find_setAppliedDiscount (uid : ℕ) (v : Option ℕ) (cs : List Cart) :
    (setAppliedDiscount uid v cs).find? (fun c => c.user = uid) =
      (cs.find? (fun c => c.user = uid)).map
        (fun c => { c with appliedDiscount := v }) := by
  induction cs with
  | nil => rfl
  | cons c cs ih =>
      by_cases hc : c.user = uid
      · simp [setAppliedDiscount, List.find?, hc]
      · simp [setAppliedDiscount, List.find?, hc, ih]

/-- Two successive writes of the applied-discount reference collapse to the
second one. -/
theorem setAppliedDiscount_twice (uid : ℕ) (v w : Option ℕ) (cs : List Cart) :
    setAppliedDiscount uid v (setAppliedDiscount uid w cs) =
      setAppliedDiscount uid v cs := by
  induction cs with
  | nil => rfl
  | cons c cs ih =>
      by_cases hc : c.user = uid
      · simp [setAppliedDiscount, hc]
      · simp [setAppliedDiscount, hc, ih]

/-- C8: when applying a still-available code to a cart succeeds, the apply
operation leaves every discount-code record unchanged (the code is not
consumed), and removing the code from the cart and re-applying it restores
exactly the state reached by the first apply, with the same response. -/
theorem C8_apply_remove_reapply (uid : ℕ) (s : String) (now : ℕ)
    (db db1 : DB) (c : String) (p : ℚ)
    (h : cartDiscountPOST uid s now db = (db1, .ok c p)) :
    db1.codes = db.codes ∧
    cartDiscountPOST uid s now (cartDiscountDELETE uid db1) =
      (db1, .ok c p) := by
  rw [cartDiscountPOST] at h
  cases hfind : lookupCodeByString db s with
  | none => simp [hfind] at h
  | some d =>
  cases hused : d.isUsed with
  | true => simp [hfind, hused] at h
  | false =>
  cases hexp : isExpiredAt now d.expiresAt with
  | true => simp [hfind, hused, hexp] at h
  | false =>
  cases hcart : lookupCart db uid with
  | none => simp [hfind, hused, hexp, hcart] at h
  | some cart =>
  cases hempty : cart.items.isEmpty with
  | true => simp [hfind, hused, hexp, hcart, hempty] at h
  | false =>
  simp only [hfind, hused, hexp, hcart, hempty, Bool.false_eq_true, if_false,
    Prod.mk.injEq, ApplyResult.ok.injEq] at h
  obtain ⟨hdb1, hc, hp⟩ := h
  subst hdb1
  rw [← hc, ← hp]
  clear hc hp
  refine ⟨rfl, ?_⟩
  have hfind2 : lookupCodeByString
      { db with carts := setAppliedDiscount uid none db.carts } s = some d :=
    hfind
  have hcart2 : lookupCart
      { db with carts := setAppliedDiscount uid none db.carts } uid =
      some { cart with appliedDiscount := none } := by
    show (setAppliedDiscount uid none db.carts).find?
      (fun c => c.user = uid) = _
    rw [find_setAppliedDiscount]
    rw [show db.carts.find? (fun c => c.user = uid) = some cart from hcart]
    rfl
  have hempty2 :
      ({ cart with appliedDiscount := none } : Cart).items.isEmpty = false :=
    hempty
  rw [cartDiscountPOST]
  simp only [cartDiscountDELETE, setAppliedDiscount_twice, hfind2, hused,
    hexp, hcart2, hempty2, Bool.false_eq_true, if_false, Prod.mk.injEq,
    DB.mk.injEq, and_true, true_and]

/-- An unused, unexpired code sitting in the demo store. -/
def demoFreeCode : DiscountCode :=
  { did := 4, code := "UNIBLOX-FREE-CODE", discountPercent := 10,
    isUsed := false, usedBy := none, usedAt := none, generatedForOrder := 5,
    expiresAt := none }

/-- The demo store holding the available code. -/
def demoDBFreeCode : DB := { demoDB with codes := [demoFreeCode] }

/-- The demo store after user 7 applied the available code. -/
def demoDBApplied : DB :=
  { demoDBFreeCode with
    carts := [{ demoCart with appliedDiscount := some 4 }] }

/-- C8, witness: applying `UNIBLOX-FREE-CODE` to the demo cart, removing it
and re-applying it lands back in the applied state, and the code record is
untouched by the apply. -/
theorem C8_witness :
    demoDBApplied.codes = demoDBFreeCode.codes ∧
    cartDiscountPOST 7 "UNIBLOX-FREE-CODE" 0
        (cartDiscountDELETE 7 demoDBApplied) =
      (demoDBApplied, .ok "UNIBLOX-FREE-CODE" 10) :=
  C8_apply_remove_reapply 7 "UNIBLOX-FREE-CODE" 0 demoDBFreeCode demoDBApplied
    "UNIBLOX-FREE-CODE" 10 rfl

/-- The apply-discount handler never writes the settings document. -/
theorem cartDiscountPOST_settings_unchanged (uid : ℕ) (s : String) (now : ℕ)
    (db : DB) : (cartDiscountPOST uid s now db).1.settings = db.settings := by
  rw [cartDiscountPOST]
  repeat' split
  all_goals rfl

/-- C9: across every modeled operation, the settings counter `totalOrders`
changes only through the settlement: every non-settlement operation leaves
it unchanged (in particular the admin settings PATCH), and a settlement
whose payment ids are present increments it by exactly one and allocates
the new value as the persisted order number. -/
theorem C9_totalOrders (op : Op) (db : DB) :
    (op.isSettle = false →
      (runOp op db).settings.totalOrders = db.settings.totalOrders) ∧
    (∀ req now fid fc, op = .settle req now fid fc →
      req.razorpayPaymentId ≠ "" → req.razorpayOrderId ≠ "" →
      (runOp op db).settings.totalOrders = db.settings.totalOrders + 1 ∧
      (runOp op db).orders.map (fun o => o.orderNumber) =
        db.orders.map (fun o => o.orderNumber) ++
          [db.settings.totalOrders + 1]) := by
  cases op with
  | settle req0 now0 fid0 fc0 =>
      refine ⟨by intro h; simp [Op.isSettle] at h, ?_⟩
      rintro req now fid fc heq hp ho
      simp only [Op.settle.injEq] at heq
      obtain ⟨rfl, rfl, rfl, rfl⟩ := heq
      have hcond : ¬(req0.razorpayPaymentId = "" ∨
          req0.razorpayOrderId = "") := by simp [hp, ho]
      constructor <;> simp [runOp, checkoutPUT, hcond]
  | quote uid now =>
      exact ⟨fun _ => rfl, fun r n f c h => Op.noConfusion h⟩
  | viewCart uid now =>
      exact ⟨fun _ => rfl, fun r n f c h => Op.noConfusion h⟩
  | applyCode uid s now =>
      exact ⟨fun _ => congrArg StoreSettings.totalOrders
          (cartDiscountPOST_settings_unchanged uid s now db),
        fun r n f c h => Op.noConfusion h⟩
  | removeCode uid =>
      exact ⟨fun _ => rfl, fun r n f c h => Op.noConfusion h⟩
  | cartClear uid =>
      exact ⟨fun _ => rfl, fun r n f c h => Op.noConfusion h⟩
  | patchSettings p =>
      refine ⟨fun _ => ?_, fun r n f c h => Op.noConfusion h⟩
      obtain ⟨n, dp, de⟩ := p
      cases n <;> cases dp <;> cases de <;> rfl

/-- C9, witness: the admin PATCH leaves the counter at 0 on the demo store,
while the demo settlement moves it from 0 to 1. -/
theorem C9_witness :
    (runOp (Op.patchSettings
        { nthOrderDiscount := some 3, discountPercent := none,
          defaultDiscountExpiry := none }) demoDB).settings.totalOrders =
      demoDB.settings.totalOrders ∧
    (runOp (Op.settle demoReq 0 100 "UNIBLOX-AAAA-AAAA")
        demoDB).settings.totalOrders = demoDB.settings.totalOrders + 1 :=
  ⟨(C9_totalOrders (Op.patchSettings
      { nthOrderDiscount := some 3, discountPercent := none,
        defaultDiscountExpiry := none }) demoDB).1 rfl,
   ((C9_totalOrders (Op.settle demoReq 0 100 "UNIBLOX-AAAA-AAAA") demoDB).2
      demoReq 0 100 "UNIBLOX-AAAA-AAAA" rfl (by decide) (by decide)).1⟩

/-- Under a stale (used or expired) applied code, the shared discount gate
yields no discount and no error. -/
theorem cartDiscountState_stale (db : DB) (cart : Cart) (now : ℕ)
    (subtotal : ℚ) (did : ℕ) (d : DiscountCode)
    (href : cart.appliedDiscount = some did)
    (hd : lookupCode db did = some d)
    (hstale : d.isUsed = true ∨ isExpiredAt now d.expiresAt = true) :
    cartDiscountState db cart now subtotal = (0, 0, none) := by
  rw [cartDiscountState, href]
  simp only [Option.some_bind, hd]
  rcases hstale with h | h <;> simp [h]

/-- C10: when the applied code has become used or expired by quote time, the
checkout quote still succeeds for the same cart, with zero discount percent
and amount, no discount code, and total equal to the subtotal; the cart
read view behaves the same way. The stale code is silently ignored, not an
error. -/
theorem C10_stale_code_ignored (uid now : ℕ) (db : DB) (cart : Cart)
    (did : ℕ) (d : DiscountCode) (vi : List OrderItem)
    (hcart : lookupCart db uid = some cart)
    (hne : cart.items.isEmpty = false)
    (hvi : validItemsOf db cart.items = .ok vi)
    (href : cart.appliedDiscount = some did)
    (hd : lookupCode db did = some d)
    (hstale : d.isUsed = true ∨ isExpiredAt now d.expiresAt = true) :
    (∃ q, checkoutPOST uid now db = .ok q ∧ q.items = vi ∧
      q.discountPercent = 0 ∧ q.discountAmount = 0 ∧ q.discountCode = none ∧
      q.total = q.subtotal) ∧
    ((cartGET uid now db).discount = none ∧
      (cartGET uid now db).discountAmount = 0 ∧
      (cartGET uid now db).total = (cartGET uid now db).subtotal) := by
  have hgate := cartDiscountState_stale db cart now
    (vi.foldl (fun s it => s + it.price * (it.quantity : ℚ)) 0) did d href
    hd hstale
  constructor
  · have hq : checkoutPOST uid now db = .ok
        { items := vi,
          subtotal := vi.foldl (fun s it => s + it.price * (it.quantity : ℚ)) 0,
          discountCode := none, discountPercent := 0, discountAmount := 0,
          total := computeTotal
            (vi.foldl (fun s it => s + it.price * (it.quantity : ℚ)) 0) 0 } := by
      rw [checkoutPOST, hcart]
      simp only [hne, Bool.false_eq_true, if_false, hvi, hgate]
    refine ⟨_, hq, rfl, rfl, rfl, rfl, ?_⟩
    simp [computeTotal]
  · have hgate2 := cartDiscountState_stale db cart now
      ((cart.items.filter (fun it =>
        match lookupProduct db it.product with
        | some p => p.isActive
        | none => false)).foldl (fun s it =>
          s + ((lookupProduct db it.product).map (fun p => p.price)).getD 0
            * (it.quantity : ℚ)) 0) did d href hd hstale
    rw [cartGET, hcart]
    simp [hgate2, computeTotal]

/-- The demo cart holding a reference to the already-used code. -/
def demoStaleCart : Cart := { demoCart with appliedDiscount := some 3 }

/-- The demo store where the cart references the used code. -/
def demoDBStale : DB :=
  { demoDB with carts := [demoStaleCart], codes := [demoUsedCode] }

/-- C10, witness: quoting the demo cart whose applied code is already used
succeeds with no discount, and the cart view shows none either. -/
theorem C10_witness :
    (∃ q, checkoutPOST 7 0 demoDBStale = .ok q ∧
      q.items = [{ product := 1, price := 100, quantity := 1 }] ∧
      q.discountPercent = 0 ∧ q.discountAmount = 0 ∧ q.discountCode = none ∧
      q.total = q.subtotal) ∧
    ((cartGET 7 0 demoDBStale).discount = none ∧
      (cartGET 7 0 demoDBStale).discountAmount = 0 ∧
      (cartGET 7 0 demoDBStale).total = (cartGET 7 0 demoDBStale).subtotal) :=
  C10_stale_code_ignored 7 0 demoDBStale demoStaleCart 3 demoUsedCode
    [{ product := 1, price := 100, quantity := 1 }] rfl rfl rfl rfl rfl
    (Or.inl rfl)

end Uniblox
